import Mathlib

/-!
Shallow embedding of the interactive experiment-building core of
chaostoolkit/cli.py: the recursive selection loop add_activities and the
init command that assembles an experiment document from an optional
discovery document.

Modelling conventions:
* Python scalar values (argument values, defaults, tolerances) are the
  inductive type Value; Python None is Value.null.
* Interactive input is a list of events (Inp).  click re-prompts until an
  answer of the right shape is accepted, so each prompt in the main model
  consumes exactly one event: the first accepted answer.  The retry layer
  of the integer prompt over raw text tokens is modelled separately by
  promptInt.
* click.prompt with a declared default returns the default when the
  operator submits empty input, and otherwise the typed text (click may
  coerce typed text to the default's type; no claim depends on that, so
  typed text is kept as a string).
* An unhandled Python exception (e.g. IndexError from an out-of-range list
  subscript) aborts the whole session; this is Except.error.  Running out
  of input events is also Except.error, as is the fuel bound on the
  recursion (the source recursion is bounded only by operator patience).
* Python dict assignment d[k] = v replaces the value of an existing key in
  place and otherwise appends the key at the end: dictInsert.
* Python negative list subscripts index from the end of the list: pyGet.
-/

/-- Scalar values appearing in discovery documents and produced experiment
documents; Value.null is Python's None. -/
inductive Value where
  | null : Value
  | str : String → Value
  | int : Int → Value
  | bool : Bool → Value
deriving DecidableEq, Repr

/-- One entry of an operation's argument list in the discovery document:
a name plus, when the "default" key is present, its declared default
(which may itself be null). -/
structure ParamSpec where
  name : String
  default : Option Value
deriving DecidableEq, Repr

/-- One activity of the discovery document's "activities" list: the fields
of the JSON object that add_activities and init read. -/
structure DiscActivity where
  name : String
  atype : String
  moduleName : String
  args : List ParamSpec
  doc : Option String
deriving DecidableEq, Repr

/-- The "provider" object of a produced activity. -/
structure Provider where
  ptype : String
  pmodule : String
  func : String
  arguments : List (String × Value)
deriving DecidableEq, Repr

/-- An activity as appended to the pool by add_activities.  The tolerance
key is present (some) exactly when the tolerance prompt ran. -/
structure SelectedActivity where
  name : String
  atype : String
  tolerance : Option Value
  provider : Provider
deriving DecidableEq, Repr

/-- One interactive input event: the accepted answer of a single prompt. -/
inductive Inp where
  | int : Int → Inp
  | yes : Inp
  | no : Inp
  | str : String → Inp
deriving DecidableEq, Repr

/-- Consume the answer of an integer-typed prompt. -/
def takeInt : List Inp → Except String (Int × List Inp)
  | Inp.int n :: rest => .ok (n, rest)
  | _ => .error "expected an integer answer"

/-- Consume the answer of a yes/no confirmation prompt. -/
def takeConfirm : List Inp → Except String (Bool × List Inp)
  | Inp.yes :: rest => .ok (true, rest)
  | Inp.no :: rest => .ok (false, rest)
  | _ => .error "expected a confirmation answer"

/-- Consume the answer of a free-text prompt. -/
def takeStr : List Inp → Except String (String × List Inp)
  | Inp.str s :: rest => .ok (s, rest)
  | _ => .error "expected a text answer"

/-- Numeric value of an ASCII digit character. -/
def charDigit (c : Char) : Option Nat :=
  if 48 ≤ c.toNat ∧ c.toNat ≤ 57 then some (c.toNat - 48) else none

/-- Decimal digit-string value, none when empty or containing a
non-digit. -/
def parseDigits (cs : List Char) : Option Nat :=
  if cs = [] then none
  else cs.foldl (fun acc c =>
    match acc, charDigit c with
    | some a, some d => some (a * 10 + d)
    | _, _ => none) (some 0)

/-- Conversion a click int prompt applies to a raw token (Python's int():
an optional minus sign followed by decimal digits); none means the token
is rejected. -/
def parseInt (s : String) : Option Int :=
  match s.data with
  | '-' :: rest => (parseDigits rest).map (fun n => -(n : Int))
  | cs => (parseDigits cs).map (fun n => (n : Int))

/-- Retry layer of click.prompt with type=int over raw text tokens: a token
that does not parse as an integer is reported and the prompt is repeated;
the first parsing token is returned. -/
def promptInt : List String → Option Int
  | [] => none
  | s :: rest =>
    match parseInt s with
    | some n => some n
    | none => promptInt rest

/-- Python list subscript xs[i]: non-negative indices from the front,
negative indices from the end, none when out of range (IndexError). -/
def pyGet {α : Type} (xs : List α) (i : Int) : Option α :=
  if 0 ≤ i then xs.get? i.toNat
  else if 0 ≤ (xs.length : Int) + i then xs.get? ((xs.length : Int) + i).toNat
  else none

/-- Python dict assignment d[k] = v: replace the value of an existing key
in place, otherwise append the new key at the end. -/
def dictInsert : List (String × Value) → String → Value → List (String × Value)
  | [], k, v => [(k, v)]
  | (k', v') :: rest, k, v =>
    if k' = k then (k, v) :: rest else (k', v') :: dictInsert rest k v

/-- Display default handed to click.prompt (cli.py lines 276-280): absent
when the spec has no "default" key; the empty string when the declared
default is null; otherwise the declared default itself. -/
def displayDefault (d : Option Value) : Option Value :=
  match d with
  | none => none
  | some v => if v = Value.null then some (Value.str "") else some v

/-- Value returned by click.prompt (cli.py lines 284-285): with a default,
empty input yields the default and anything else the typed text; with no
default click keeps re-prompting on empty input, so the accepted answer is
the typed text. -/
def promptValue (d : Option Value) (input : String) : Value :=
  match d with
  | none => Value.str input
  | some v => if input = "" then v else Value.str input

/-- Elicit one argument value (cli.py lines 272-292): display-default
substitution, the prompt, then the un-substitution that turns an empty
string back into null when the declared default was null. -/
def elicitArg (a : ParamSpec) (input : String) : Value :=
  let raw := promptValue (displayDefault a.default) input
  if a.default = some Value.null ∧ raw = Value.str "" then Value.null else raw

/-- Loop over the selected operation's argument specs (cli.py lines
267-294): the reserved names secrets and configuration are skipped without
prompting; every other argument consumes one text answer and is stored in
the arguments dict. -/
def elicitArgs : List ParamSpec → List Inp → List (String × Value) →
    Except String (List (String × Value) × List Inp)
  | [], inps, acc => .ok (acc, inps)
  | a :: rest, inps, acc =>
    if a.name = "secrets" ∨ a.name = "configuration" then
      elicitArgs rest inps acc
    else
      match takeStr inps with
      | .error e => .error e
      | .ok (input, inps1) =>
        elicitArgs rest inps1 (dictInsert acc a.name (elicitArg a input))

/-- Tolerance prompt (cli.py lines 259-262): runs only when with_tolerance
is set, and stores the answer verbatim. -/
def promptTolerance (wt : Bool) (inps : List Inp) :
    Except String (Option Value × List Inp) :=
  if wt then
    match takeStr inps with
    | .error e => .error e
    | .ok (t, inps1) => .ok (some (Value.str t), inps1)
  else .ok (none, inps)

/-- Build one activity from the selected operation (cli.py lines 256-294):
name and type copied from the selection, the tolerance prompt when
with_tolerance is set, a fresh python provider, and the elicited
arguments. -/
def buildActivity (a : DiscActivity) (wt : Bool) (inps : List Inp) :
    Except String (SelectedActivity × List Inp) :=
  match promptTolerance wt inps with
  | .error e => .error e
  | .ok (tol, inps1) =>
    match elicitArgs a.args inps1 [] with
    | .error e => .error e
    | .ok (args, inps2) =>
      .ok ({ name := a.name, atype := a.atype, tolerance := tol,
             provider := { ptype := "python", pmodule := a.moduleName,
                           func := a.name, arguments := args } }, inps2)

/-- Tail of one loop round once an activity is to be built (cli.py lines
256-298): build it, append it to the pool, then ask whether to select
another activity; the returned flag is that answer. -/
def roundFinish (wt : Bool) (sel : String × DiscActivity) (inps : List Inp)
    (pool : List SelectedActivity) :
    Except String (List SelectedActivity × List Inp × Bool) :=
  match buildActivity sel.2 wt inps with
  | .error e => .error e
  | .ok (act, inps1) =>
    match takeConfirm inps1 with
    | .error e => .error e
    | .ok (another, inps2) => .ok (pool ++ [act], inps2, another)

/-- The selection loop add_activities (cli.py lines 211-300).  One round:
prompt for a 1-based index (0 escapes), subscript the candidate list with
index-1 (unchecked: IndexError aborts), confirm use of the selection; on
decline, ask whether to pick another activity — declining that returns,
accepting recurses WITHOUT with_tolerance and then, because the source has
no return after the recursive call on line 254, falls through and builds
the declined selection anyway; after an activity is appended, accepting
"select another" recurses, again without with_tolerance (line 300).  The
fuel argument only bounds the recursion depth, which the source leaves to
operator patience. -/
def add_activities : Nat → List (String × DiscActivity) → Bool → List Inp →
    List SelectedActivity → Except String (List SelectedActivity × List Inp)
  | 0, _, _, _, _ => .error "interaction budget exhausted"
  | fuel + 1, cs, wt, inps, pool =>
    match takeInt inps with
    | .error e => .error e
    | .ok (idx, inps1) =>
      if idx = 0 then .ok (pool, inps1)
      else
        match pyGet cs (idx - 1) with
        | none => .error "IndexError: list index out of range"
        | some sel =>
          match takeConfirm inps1 with
          | .error e => .error e
          | .ok (useIt, inps2) =>
            if useIt then
              match roundFinish wt sel inps2 pool with
              | .error e => .error e
              | .ok (pool1, inpsA, another) =>
                if another then add_activities fuel cs false inpsA pool1
                else .ok (pool1, inpsA)
            else
              match takeConfirm inps2 with
              | .error e => .error e
              | .ok (retry, inps3) =>
                if retry then
                  match add_activities fuel cs false inps3 pool with
                  | .error e => .error e
                  | .ok (pool2, inps4) =>
                    match roundFinish wt sel inps4 pool2 with
                    | .error e => .error e
                    | .ok (pool3, inpsB, another) =>
                      if another then add_activities fuel cs false inpsB pool3
                      else .ok (pool3, inpsB)
                else .ok (pool, inps3)

/-- Discovery document as read by init: its "activities" list. -/
structure DiscoveryDoc where
  activities : List DiscActivity
deriving DecidableEq, Repr

/-- Steady-state hypothesis object built by init; the probes key is only
created when a discovery document is present. -/
structure Hypothesis where
  title : String
  probes : Option (List SelectedActivity)
deriving DecidableEq, Repr

/-- The experiment document assembled by init.  Optional fields stand for
keys the source only conditionally creates: hypothesis when the operator
asks for one, method only when a discovery document is present. -/
structure ExperimentDoc where
  version : String
  title : String
  description : String
  tags : List String
  rollbacks : List SelectedActivity
  hypothesis : Option Hypothesis
  method : Option (List SelectedActivity)
deriving DecidableEq, Repr

/-- Candidate list for the steady-state hypothesis (cli.py lines 184-188):
the discovery activities whose type is "probe", in discovery order, paired
with their display name. -/
def hypoCandidates (d : DiscoveryDoc) : List (String × DiscActivity) :=
  d.activities.filterMap
    (fun a => if a.atype = "probe" then some (a.name, a) else none)

/-- Candidate list for the method (cli.py line 195): every discovery
activity, unfiltered, in discovery order, paired with its display name. -/
def methodCandidates (d : DiscoveryDoc) : List (String × DiscActivity) :=
  d.activities.map (fun a => (a.name, a))

/-- Hypothesis branch of init (cli.py lines 177-191), entered after the
operator confirms: prompt for the hypothesis title, and when a discovery
document is present run the selection loop over the probe candidates with
with_tolerance set. -/
def buildHypo (fuel : Nat) (discovery : Option DiscoveryDoc) (inps : List Inp) :
    Except String (Option Hypothesis × List Inp) :=
  match takeStr inps with
  | .error e => .error e
  | .ok (htitle, inps1) =>
    match discovery with
    | none => .ok (some { title := htitle, probes := none }, inps1)
    | some d =>
      match add_activities fuel (hypoCandidates d) true inps1 [] with
      | .error e => .error e
      | .ok (probes, inps2) =>
        .ok (some { title := htitle, probes := some probes }, inps2)

/-- Method branch of init (cli.py lines 193-196): only when a discovery
document is present is the method key created and the selection loop run
over all activities. -/
def buildMethod (fuel : Nat) (discovery : Option DiscoveryDoc) (inps : List Inp) :
    Except String (Option (List SelectedActivity) × List Inp) :=
  match discovery with
  | none => .ok (none, inps)
  | some d =>
    match add_activities fuel (methodCandidates d) false inps [] with
    | .error e => .error e
    | .ok (meth, rest) => .ok (some meth, rest)

/-- The init command's interactive core (cli.py lines 147-204): prompt for
the experiment title, optionally build a steady-state hypothesis, then
build the method, over the base experiment skeleton of lines 162-168. -/
def init (fuel : Nat) (discovery : Option DiscoveryDoc) (inps : List Inp) :
    Except String (ExperimentDoc × List Inp) :=
  match takeStr inps with
  | .error e => .error e
  | .ok (title, inps1) =>
    match takeConfirm inps1 with
    | .error e => .error e
    | .ok (wantHypo, inps2) =>
      match (if wantHypo then buildHypo fuel discovery inps2
             else .ok (none, inps2)) with
      | .error e => .error e
      | .ok (hypo, inps3) =>
        match buildMethod fuel discovery inps3 with
        | .error e => .error e
        | .ok (meth, inps4) =>
          .ok ({ version := "1.0.0", title := title, description := "N/A",
                 tags := [], rollbacks := [], hypothesis := hypo,
                 method := meth }, inps4)

/-- Sample probe operation used in concrete runs. -/
def probeOne : DiscActivity :=
  { name := "probe-one", atype := "probe", moduleName := "m.probes",
    args := [], doc := none }

/-- Sample action operation used in concrete runs. -/
def actionOne : DiscActivity :=
  { name := "action-one", atype := "action", moduleName := "m.actions",
    args := [], doc := none }

/-- The activity add_activities appends for a given selection, tolerance
and arguments; abbreviation for concrete expected results. -/
def mkSel (a : DiscActivity) (tol : Option Value)
    (args : List (String × Value)) : SelectedActivity :=
  { name := a.name, atype := a.atype, tolerance := tol,
    provider := { ptype := "python", pmodule := a.moduleName,
                  func := a.name, arguments := args } }

/-- Python subscripting of the empty list always raises IndexError. -/
lemma pyGet_nil {α : Type} (i : Int) : pyGet ([] : List α) i = none := by
  unfold pyGet
  simp

/-- Sample operation declaring the reserved parameter names with defaults
plus one ordinary parameter. -/
def argOp : DiscActivity :=
  { name := "op", atype := "action", moduleName := "m",
    args := [⟨"secrets", some (Value.str "s")⟩,
             ⟨"configuration", some Value.null⟩,
             ⟨"x", none⟩],
    doc := none }

/-- Sample candidate list with one probe and one action. -/
def twoCandidates : List (String × DiscActivity) :=
  [("probe-one", probeOne), ("action-one", actionOne)]

/-- C8: answering 0 (the only falsy int the integer prompt can accept) at
the very first menu prompt of an invocation of add_activities returns
immediately with the pool exactly as it was passed in, consuming no
further input. -/
theorem c8_zero_escapes (fuel : Nat) (cs : List (String × DiscActivity))
    (wt : Bool) (inps : List Inp) (pool : List SelectedActivity) :
    add_activities (fuel + 1) cs wt (Inp.int 0 :: inps) pool = .ok (pool, inps) := rfl

/-- C1 (code bug): with candidates probe-one and action-one, the operator
selects entry 1, declines to use it, agrees to pick another, selects entry
2, accepts it, and then answers no to both remaining continue prompts.
Only one accept-confirmation was given, yet the pool receives two entries:
because the source lacks a return after the recursive call on line 254,
the declined probe-one is built and appended after the retry sub-session
returns. -/
theorem c1_declined_activity_appended :
    add_activities 3 twoCandidates false
      [Inp.int 1, Inp.no, Inp.yes, Inp.int 2, Inp.yes, Inp.no, Inp.no] []
      = .ok ([mkSel actionOne none [], mkSel probeOne none []], []) := rfl

/-- C2 (code bug): an invocation started with with_tolerance set collects
a tolerance for the first accepted probe, but when the operator chooses to
select another activity the recursive call on line 300 drops
with_tolerance, so the second accepted probe of the same invocation is
appended without any tolerance key. -/
theorem c2_tolerance_dropped_on_recursion :
    add_activities 3 [("probe-one", probeOne)] true
      [Inp.int 1, Inp.yes, Inp.str "below 200ms", Inp.yes,
       Inp.int 1, Inp.yes, Inp.no] []
      = .ok ([mkSel probeOne (some (Value.str "below 200ms")) [],
              mkSel probeOne none []], []) := rfl

/-- C3 (counterexample): with a single candidate, the menu answer 2 is a
positive index out of range; the unchecked subscript on line 243 raises
IndexError, which no handler catches, so the selection loop terminates
fatally instead of re-prompting. -/
theorem c3_out_of_range_is_fatal :
    add_activities 1 [("probe-one", probeOne)] false [Inp.int 2] []
      = .error "IndexError: list index out of range" := rfl

/-- C6 (counterexample): when no discovery document is supplied, the
produced experiment document carries no method key at all (modelled as
none), which is not an empty method sequence (some []). -/
theorem c6_no_discovery_has_no_method_key :
    init 1 none [Inp.str "t", Inp.no]
      = .ok ({ version := "1.0.0", title := "t", description := "N/A",
               tags := [], rollbacks := [], hypothesis := none,
               method := none }, []) ∧
    (none : Option (List SelectedActivity)) ≠ some [] := ⟨rfl, by simp⟩

/-- C4: for a parameter whose declared default is null, submitting exactly
the empty string stores null in the arguments mapping, not the empty
string; for a parameter whose declared default is any non-null value,
submitting empty input stores that literal default. -/
theorem c4_empty_input_stores_true_default (nm : String)
    (hn1 : nm ≠ "secrets") (hn2 : nm ≠ "configuration") (v : Value)
    (inps : List Inp) :
    elicitArgs [⟨nm, some Value.null⟩] (Inp.str "" :: inps) []
      = .ok ([(nm, Value.null)], inps) ∧
    (v ≠ Value.null →
      elicitArgs [⟨nm, some v⟩] (Inp.str "" :: inps) []
        = .ok ([(nm, v)], inps)) := by
  have hr : ¬ (nm = "secrets" ∨ nm = "configuration") := by tauto
  constructor
  · simp [elicitArgs, hr, takeStr, elicitArg, displayDefault, promptValue,
      dictInsert]
  · intro hv
    simp [elicitArgs, hr, takeStr, elicitArg, displayDefault, promptValue,
      dictInsert, hv]

/-- Witness for C4 at the parameter name timeout with literal default 30. -/
theorem c4_empty_input_stores_true_default_witness :
    elicitArgs [⟨"timeout", some Value.null⟩] (Inp.str "" :: []) []
      = .ok ([("timeout", Value.null)], []) ∧
    elicitArgs [⟨"timeout", some (Value.int 30)⟩] (Inp.str "" :: []) []
      = .ok ([("timeout", Value.int 30)], []) :=
  ⟨(c4_empty_input_stores_true_default "timeout" (by decide) (by decide)
      (Value.int 30) []).1,
   (c4_empty_input_stores_true_default "timeout" (by decide) (by decide)
      (Value.int 30) []).2 (by decide)⟩

/-- Formalisation of claim C5's description of the method candidate list,
written from the claim's words for comparison with methodCandidates: the
discovery activities filtered by the method section's kind, i.e. with the
probe entries removed. -/
def methodCandidatesClaim (d : DiscoveryDoc) : List (String × DiscActivity) :=
  d.activities.filterMap
    (fun a => if a.atype = "probe" then none else some (a.name, a))

/-- Sample discovery holding one probe and one action. -/
def mixedDiscovery : DiscoveryDoc := ⟨[probeOne, actionOne]⟩

/-- C5 (counterexample): on a discovery with one probe and one action, the
method candidate list built by init is not the kind-filtered list the
claim describes — it still contains the probe entry. -/
theorem c5_method_candidates_unfiltered :
    methodCandidates mixedDiscovery ≠ methodCandidatesClaim mixedDiscovery ∧
    ("probe-one", probeOne) ∈ methodCandidates mixedDiscovery := by decide

/-- C5 (amended): the hypothesis candidate list is the discovery's
activity list filtered to entries of type probe, in discovery order, while
the method candidate list is the whole activity list, unfiltered, in
discovery order; both pair each activity with its display name. -/
theorem c5_candidate_lists (d : DiscoveryDoc) :
    (hypoCandidates d).map Prod.snd
      = d.activities.filter (fun a => a.atype == "probe") ∧
    (methodCandidates d).map Prod.snd = d.activities := by
  constructor
  · unfold hypoCandidates
    induction d.activities with
    | nil => rfl
    | cons a rest ih =>
      by_cases h : a.atype = "probe" <;>
        simp [List.filterMap_cons, List.filter_cons, h, ih]
  · unfold methodCandidates
    simp [List.map_map, Function.comp_def]

/-- C3 (amended): a non-numeric menu answer is rejected and re-prompted by
the integer prompt itself, so it never reaches the selection loop and is
not fatal; but a positive index beyond the candidate list's range passes
the only guard (the zero check) and the unchecked subscript raises an
unhandled IndexError that terminates the selection loop fatally — there is
no InvalidSelection recovery in the source. -/
theorem c3_reprompt_and_index_error (s : String) (ts : List String)
    (hs : parseInt s = none) (fuel : Nat) (cs : List (String × DiscActivity))
    (wt : Bool) (n : Int) (h0 : 0 < n) (hoob : (cs.length : Int) < n)
    (inps : List Inp) (pool : List SelectedActivity) :
    promptInt (s :: ts) = promptInt ts ∧
    add_activities (fuel + 1) cs wt (Inp.int n :: inps) pool
      = .error "IndexError: list index out of range" := by
  constructor
  · simp [promptInt, hs]
  · have hne : ¬ n = 0 := by omega
    have hget : pyGet cs (n - 1) = none := by
      unfold pyGet
      rw [if_pos (by omega : (0:Int) ≤ n - 1)]
      exact List.get?_eq_none.mpr (by omega)
    simp only [add_activities, takeInt]
    rw [if_neg hne, hget]

/-- Witness for C3's amended statement: the token abc is skipped by the
integer prompt, and answer 2 on a one-candidate list aborts with
IndexError. -/
theorem c3_reprompt_and_index_error_witness :
    promptInt ("abc" :: ["2"]) = promptInt ["2"] ∧
    add_activities (0 + 1) [("probe-one", probeOne)] false
      (Inp.int 2 :: []) []
      = .error "IndexError: list index out of range" :=
  c3_reprompt_and_index_error "abc" ["2"] (by decide) 0
    [("probe-one", probeOne)] false 2 (by decide) (by decide) [] []

/-- C10: a negative menu answer n with a candidate list long enough that
len + n - 1 is still a valid zero-based position neither escapes the loop
nor raises IndexError: the Python subscript counts from the end of the
list, so the loop silently proceeds exactly as if the operator had given
the equivalent positive 1-based answer len + n. -/
theorem c10_negative_index_counts_from_end (cs : List (String × DiscActivity))
    (n : Int) (hn : n < 0) (hge : 0 ≤ (cs.length : Int) + n - 1)
    (fuel : Nat) (wt : Bool) (inps : List Inp) (pool : List SelectedActivity) :
    pyGet cs (n - 1) = cs.get? ((cs.length : Int) + n - 1).toNat ∧
    cs.get? ((cs.length : Int) + n - 1).toNat ≠ none ∧
    add_activities (fuel + 1) cs wt (Inp.int n :: inps) pool
      = add_activities (fuel + 1) cs wt
          (Inp.int ((cs.length : Int) + n) :: inps) pool := by
  have hpy : pyGet cs (n - 1) = cs.get? ((cs.length : Int) + n - 1).toNat := by
    unfold pyGet
    rw [if_neg (by omega : ¬ (0:Int) ≤ n - 1),
      if_pos (by omega : (0:Int) ≤ (cs.length : Int) + (n - 1))]
    have h3 : (cs.length : Int) + (n - 1) = (cs.length : Int) + n - 1 := by ring
    rw [h3]
  have hlt : ((cs.length : Int) + n - 1).toNat < cs.length := by omega
  have hsel : cs.get? ((cs.length : Int) + n - 1).toNat
      = some (cs.get ⟨((cs.length : Int) + n - 1).toNat, hlt⟩) :=
    List.get?_eq_get hlt
  have hpy2 : pyGet cs ((cs.length : Int) + n - 1)
      = cs.get? ((cs.length : Int) + n - 1).toNat := by
    unfold pyGet
    rw [if_pos (by omega : (0:Int) ≤ (cs.length : Int) + n - 1)]
  refine ⟨hpy, by rw [hsel]; simp, ?_⟩
  simp only [add_activities, takeInt]
  rw [if_neg (by omega : ¬ n = 0),
    if_neg (by omega : ¬ (cs.length : Int) + n = 0), hpy, hpy2, hsel]

/-- Witness for C10: on a two-candidate list, answer -1 resolves to the
candidate at zero-based position 0 and behaves like the positive answer 1. -/
theorem c10_negative_index_counts_from_end_witness :
    pyGet twoCandidates (-1 - 1) = twoCandidates.get? 0 ∧
    twoCandidates.get? 0 ≠ none ∧
    add_activities (0 + 1) twoCandidates false (Inp.int (-1) :: []) []
      = add_activities (0 + 1) twoCandidates false (Inp.int 1 :: []) [] :=
  c10_negative_index_counts_from_end twoCandidates (-1) (by decide)
    (by decide) 0 false [] []

/-- Keys after a Python dict assignment are the inserted key plus old
keys. -/
lemma dictInsert_keys (acc : List (String × Value)) (k : String) (v : Value) :
    ∀ k', k' ∈ (dictInsert acc k v).map Prod.fst →
      k' = k ∨ k' ∈ acc.map Prod.fst := by
  induction acc with
  | nil =>
    intro k' h
    simp [dictInsert] at h
    simp [h]
  | cons p rest ih =>
    obtain ⟨a, b⟩ := p
    intro k' h
    by_cases hak : a = k
    · simp [dictInsert, hak] at h
      rcases h with h | h
      · simp [h]
      · simp [h]
    · simp [dictInsert, hak] at h
      rcases h with h | h
      · simp [h]
      · rcases ih k' (by simpa using h) with h1 | h1
        · simp [h1]
        · simp [h1]

/-- The argument-elicitation loop never adds the reserved names secrets or
configuration to the arguments dict. -/
lemma elicitArgs_no_reserved :
    ∀ (specs : List ParamSpec) (inps : List Inp)
      (acc out : List (String × Value)) (rest : List Inp),
      elicitArgs specs inps acc = .ok (out, rest) →
      (∀ k' ∈ acc.map Prod.fst, k' ≠ "secrets" ∧ k' ≠ "configuration") →
      ∀ k' ∈ out.map Prod.fst, k' ≠ "secrets" ∧ k' ≠ "configuration" := by
  intro specs
  induction specs with
  | nil =>
    intro inps acc out rest h hacc
    simp [elicitArgs] at h
    obtain ⟨h1, h2⟩ := h
    subst h1
    exact hacc
  | cons a restSpecs ih =>
    intro inps acc out rest h hacc
    by_cases hres : a.name = "secrets" ∨ a.name = "configuration"
    · rw [elicitArgs, if_pos hres] at h
      exact ih inps acc out rest h hacc
    · rw [elicitArgs, if_neg hres] at h
      push_neg at hres
      split at h
      · exact absurd h (by simp)
      · rename_i input inps1 heq
        refine ih _ _ _ _ h ?_
        intro k' hk'
        rcases dictInsert_keys acc a.name (elicitArg a input) k' hk' with h1 | h1
        · subst h1
          exact hres
        · exact hacc k' h1

/-- C7: whenever buildActivity produces an activity, the reserved
parameter names secrets and configuration are absent from its arguments
mapping, even when the operation's argument specs declare them (with or
without defaults). -/
theorem c7_reserved_names_never_stored (a : DiscActivity) (wt : Bool)
    (inps rest : List Inp) (act : SelectedActivity)
    (h : buildActivity a wt inps = .ok (act, rest)) :
    "secrets" ∉ act.provider.arguments.map Prod.fst ∧
    "configuration" ∉ act.provider.arguments.map Prod.fst := by
  unfold buildActivity at h
  split at h
  · exact absurd h (by simp)
  · rename_i tol inps1 htol
    split at h
    · exact absurd h (by simp)
    · rename_i args inps2 hargs
      simp only [Except.ok.injEq, Prod.mk.injEq] at h
      obtain ⟨h1, h2⟩ := h
      subst h1
      have hout := elicitArgs_no_reserved a.args inps1 [] args inps2
        hargs (by simp)
      constructor
      · intro hmem
        exact (hout "secrets" hmem).1 rfl
      · intro hmem
        exact (hout "configuration" hmem).2 rfl

/-- Witness for C7: an operation declaring secrets and configuration with
defaults plus one ordinary parameter x yields an arguments mapping holding
only x. -/
theorem c7_reserved_names_never_stored_witness :
    "secrets" ∉ (mkSel argOp none [("x", Value.str "v")]).provider.arguments.map
      Prod.fst ∧
    "configuration" ∉ (mkSel argOp none
      [("x", Value.str "v")]).provider.arguments.map Prod.fst :=
  c7_reserved_names_never_stored argOp false [Inp.str "v"] []
    (mkSel argOp none [("x", Value.str "v")]) rfl

/-- A run of the selection loop over an empty candidate list can only
return the pool it was given: 0 escapes at once and any other selection
subscripts the empty list, raising IndexError. -/
lemma add_activities_nil_pool (fuel : Nat) {wt : Bool} {inps rest : List Inp}
    {pool out : List SelectedActivity}
    (h : add_activities fuel [] wt inps pool = .ok (out, rest)) : out = pool := by
  cases fuel with
  | zero => exact absurd h (by simp [add_activities])
  | succ fuel =>
    unfold add_activities at h
    split at h
    · exact absurd h (by simp)
    · rename_i idx inps1 heq
      split at h
      · simp only [Except.ok.injEq, Prod.mk.injEq] at h
        exact h.1.symm
      · split at h
        · exact absurd h (by simp)
        · rename_i sel hsel
          rw [pyGet_nil] at hsel
          exact absurd hsel (by simp)

/-- C9: whenever init completes on a discovery document whose activity
list is empty, the produced experiment's method sequence is empty, and so
is the steady-state hypothesis observations sequence whenever a hypothesis
was defined. -/
theorem c9_empty_discovery_empty_sequences (fuel : Nat) (inps rest : List Inp)
    (doc : ExperimentDoc)
    (h : init fuel (some ⟨[]⟩) inps = .ok (doc, rest)) :
    doc.method = some [] ∧
    doc.hypothesis.elim True (fun hy => hy.probes = some []) := by
  unfold init at h
  split at h
  · exact absurd h (by simp)
  · rename_i title inps1 hts
    split at h
    · exact absurd h (by simp)
    · rename_i wantHypo inps2 htc
      split at h
      · exact absurd h (by simp)
      · rename_i hypo inps3 hhs
        split at h
        · exact absurd h (by simp)
        · rename_i meth inps4 hms
          simp only [Except.ok.injEq, Prod.mk.injEq] at h
          obtain ⟨h1, h2⟩ := h
          subst h1
          have hmeth : meth = some [] := by
            unfold buildMethod at hms
            simp only [methodCandidates, List.map_nil] at hms
            split at hms
            · exact absurd hms (by simp)
            · rename_i pool1 rest1 hrun
              simp only [Except.ok.injEq, Prod.mk.injEq] at hms
              rw [← hms.1, add_activities_nil_pool fuel hrun]
          have hhypo : hypo.elim True (fun hy => hy.probes = some []) := by
            cases wantHypo with
            | false =>
              simp only [Bool.false_eq_true, if_false, Except.ok.injEq,
                Prod.mk.injEq] at hhs
              rw [← hhs.1]
              simp
            | true =>
              simp only [if_true] at hhs
              unfold buildHypo at hhs
              split at hhs
              · exact absurd hhs (by simp)
              · rename_i htitle inps1' hts'
                simp only [hypoCandidates, List.filterMap_nil] at hhs
                split at hhs
                · exact absurd hhs (by simp)
                · rename_i probes rest' hrun
                  simp only [Except.ok.injEq, Prod.mk.injEq] at hhs
                  rw [← hhs.1]
                  simp [add_activities_nil_pool fuel hrun]
          exact ⟨hmeth, hhypo⟩

/-- Witness for C9: a complete interactive run over an empty discovery in
which the operator defines a hypothesis and escapes both selection loops
with 0. -/
theorem c9_empty_discovery_empty_sequences_witness :
    ({ version := "1.0.0", title := "t", description := "N/A", tags := [],
       rollbacks := [], hypothesis := some { title := "h", probes := some [] },
       method := some [] } : ExperimentDoc).method = some [] ∧
    ({ version := "1.0.0", title := "t", description := "N/A", tags := [],
       rollbacks := [], hypothesis := some { title := "h", probes := some [] },
       method := some [] } : ExperimentDoc).hypothesis.elim True
      (fun hy => hy.probes = some []) :=
  c9_empty_discovery_empty_sequences 1
    [Inp.str "t", Inp.yes, Inp.str "h", Inp.int 0, Inp.int 0] []
    { version := "1.0.0", title := "t", description := "N/A", tags := [],
      rollbacks := [], hypothesis := some { title := "h", probes := some [] },
      method := some [] } rfl

/-- C6 (amended): when no discovery document is supplied, the produced
experiment document carries no method key at all, and the steady-state
hypothesis, when the operator defines one, carries no probes key; no
activity is ever added. -/
theorem c6_no_discovery_omits_keys (fuel : Nat) (inps rest : List Inp)
    (doc : ExperimentDoc) (h : init fuel none inps = .ok (doc, rest)) :
    doc.method = none ∧
    doc.hypothesis.elim True (fun hy => hy.probes = none) := by
  unfold init at h
  split at h
  · exact absurd h (by simp)
  · rename_i title inps1 hts
    split at h
    · exact absurd h (by simp)
    · rename_i wantHypo inps2 htc
      split at h
      · exact absurd h (by simp)
      · rename_i hypo inps3 hhs
        split at h
        · exact absurd h (by simp)
        · rename_i meth inps4 hms
          simp only [Except.ok.injEq, Prod.mk.injEq] at h
          obtain ⟨h1, h2⟩ := h
          subst h1
          have hmeth : meth = none := by
            unfold buildMethod at hms
            simp only [Except.ok.injEq, Prod.mk.injEq] at hms
            exact hms.1.symm
          have hhypo : hypo.elim True (fun hy => hy.probes = none) := by
            cases wantHypo with
            | false =>
              simp only [Bool.false_eq_true, if_false, Except.ok.injEq,
                Prod.mk.injEq] at hhs
              rw [← hhs.1]
              simp
            | true =>
              simp only [if_true] at hhs
              unfold buildHypo at hhs
              split at hhs
              · exact absurd hhs (by simp)
              · rename_i htitle inps1' hts'
                simp only [Except.ok.injEq, Prod.mk.injEq] at hhs
                rw [← hhs.1]
                simp
          exact ⟨hmeth, hhypo⟩

/-- Witness for C6's amended statement: the no-discovery run that declines
the hypothesis produces a document with neither key. -/
theorem c6_no_discovery_omits_keys_witness :
    ({ version := "1.0.0", title := "t", description := "N/A", tags := [],
       rollbacks := [], hypothesis := none,
       method := none } : ExperimentDoc).method = none ∧
    ({ version := "1.0.0", title := "t", description := "N/A", tags := [],
       rollbacks := [], hypothesis := none,
       method := none } : ExperimentDoc).hypothesis.elim True
      (fun hy => hy.probes = none) :=
  c6_no_discovery_omits_keys 1 [Inp.str "t", Inp.no] []
    { version := "1.0.0", title := "t", description := "N/A", tags := [],
      rollbacks := [], hypothesis := none, method := none } rfl
